import Mathlib

set_option maxRecDepth 100000

/-!
Verification development for the HTTP authentication engine of neon
(`src/ne_auth.c`).  The C data model and operations are embedded as
executable Lean definitions; machine integers are `Nat` reduced
`% 2^32` where overflow matters, C strings are `String`/`List Char`,
NULL-able pointers are `Option`, and the mutable `auth_session` is
threaded explicitly.  The streaming MD5 context (`struct ne_md5_ctx`)
is represented by the list of bytes processed so far; `finish`
computes the digest of that list, which matches the streaming
contract extensionally and makes the `stored_rdig` snapshot a plain
copy of the list.
-/

namespace NeonAuth

/-! ### MD5 primitive

Modelled from the spec: the MD5 `init/update/finish` primitive and the
hex-encode helper (`ne_md5.c` is not part of the sources provided; the
spec specifies it as "Streaming MD5 with init/update/finish and a
hex-encode helper. Contract only; any conformant implementation
suffices").  This is the RFC 1321 algorithm on byte lists. -/

def m32 : Nat := 4294967296

def mask32 (x : Nat) : Nat := x % m32

def rotl (x n : Nat) : Nat := mask32 (x <<< n) ||| (x >>> (32 - n))

def md5K : List Nat :=
  [0xd76aa478, 0xe8c7b756, 0x242070db, 0xc1bdceee,
   0xf57c0faf, 0x4787c62a, 0xa8304613, 0xfd469501,
   0x698098d8, 0x8b44f7af, 0xffff5bb1, 0x895cd7be,
   0x6b901122, 0xfd987193, 0xa679438e, 0x49b40821,
   0xf61e2562, 0xc040b340, 0x265e5a51, 0xe9b6c7aa,
   0xd62f105d, 0x02441453, 0xd8a1e681, 0xe7d3fbc8,
   0x21e1cde6, 0xc33707d6, 0xf4d50d87, 0x455a14ed,
   0xa9e3e905, 0xfcefa3f8, 0x676f02d9, 0x8d2a4c8a,
   0xfffa3942, 0x8771f681, 0x6d9d6122, 0xfde5380c,
   0xa4beea44, 0x4bdecfa9, 0xf6bb4b60, 0xbebfbc70,
   0x289b7ec6, 0xeaa127fa, 0xd4ef3085, 0x04881d05,
   0xd9d4d039, 0xe6db99e5, 0x1fa27cf8, 0xc4ac5665,
   0xf4292244, 0x432aff97, 0xab9423a7, 0xfc93a039,
   0x655b59c3, 0x8f0ccc92, 0xffeff47d, 0x85845dd1,
   0x6fa87e4f, 0xfe2ce6e0, 0xa3014314, 0x4e0811a1,
   0xf7537e82, 0xbd3af235, 0x2ad7d2bb, 0xeb86d391]

def md5S : List Nat :=
  [7, 12, 17, 22, 7, 12, 17, 22, 7, 12, 17, 22, 7, 12, 17, 22,
   5, 9, 14, 20, 5, 9, 14, 20, 5, 9, 14, 20, 5, 9, 14, 20,
   4, 11, 16, 23, 4, 11, 16, 23, 4, 11, 16, 23, 4, 11, 16, 23,
   6, 10, 15, 21, 6, 10, 15, 21, 6, 10, 15, 21, 6, 10, 15, 21]

def md5F (i b c d : Nat) : Nat :=
  if i < 16 then (b &&& c) ||| ((4294967295 ^^^ b) &&& d)
  else if i < 32 then (d &&& b) ||| ((4294967295 ^^^ d) &&& c)
  else if i < 48 then b ^^^ c ^^^ d
  else c ^^^ (b ||| (4294967295 ^^^ d))

def md5G (i : Nat) : Nat :=
  if i < 16 then i
  else if i < 32 then (5 * i + 1) % 16
  else if i < 48 then (3 * i + 5) % 16
  else (7 * i) % 16

def md5Step (M : List Nat) (st : Nat × Nat × Nat × Nat) (i : Nat) :
    Nat × Nat × Nat × Nat :=
  let a := st.1
  let b := st.2.1
  let c := st.2.2.1
  let d := st.2.2.2
  let f := mask32 (md5F i b c d + a + md5K.getD i 0 + M.getD (md5G i) 0)
  (d, mask32 (b + rotl f (md5S.getD i 0)), b, c)

def md5Block (st : Nat × Nat × Nat × Nat) (M : List Nat) :
    Nat × Nat × Nat × Nat :=
  let r := (List.range 64).foldl (md5Step M) st
  (mask32 (st.1 + r.1), mask32 (st.2.1 + r.2.1),
   mask32 (st.2.2.1 + r.2.2.1), mask32 (st.2.2.2 + r.2.2.2))

def bytesToWordsLE : List Nat → List Nat
  | b0 :: b1 :: b2 :: b3 :: rest =>
    (b0 + 256 * b1 + 65536 * b2 + 16777216 * b3) :: bytesToWordsLE rest
  | _ => []

def chunk64 : Nat → List Nat → List (List Nat)
  | 0, _ => []
  | _, [] => []
  | fuel + 1, l => l.take 64 :: chunk64 fuel (l.drop 64)

def lenBytesLE : Nat → Nat → List Nat
  | 0, _ => []
  | d + 1, n => (n % 256) :: lenBytesLE d (n / 256)

def md5Pad (msg : List Nat) : List Nat :=
  let len := msg.length
  let padZeros := (119 - len % 64) % 64
  let bitlen := (8 * len) % (m32 * m32)
  msg ++ 128 :: (List.replicate padZeros 0 ++ lenBytesLE 8 bitlen)

def md5Init : Nat × Nat × Nat × Nat :=
  (0x67452301, 0xefcdab89, 0x98badcfe, 0x10325476)

def md5Digest (msg : List Nat) : List Nat :=
  let blocks := chunk64 (msg.length + 65) (md5Pad msg)
  let st := blocks.foldl (fun s b => md5Block s (bytesToWordsLE b)) md5Init
  lenBytesLE 4 st.1 ++ lenBytesLE 4 st.2.1 ++
    lenBytesLE 4 st.2.2.1 ++ lenBytesLE 4 st.2.2.2

def hexChars : List Char := ("0123456789abcdef").toList

def hexDigit (n : Nat) : Char := hexChars.getD n ('0')

/-- Modelled from the spec: `ne_md5_to_ascii`, the lowercase-hex encoding
of a 16-byte digest. -/
def bytesToHex (bs : List Nat) : String :=
  String.mk (bs.foldr (fun b acc => hexDigit (b / 16) :: hexDigit (b % 16) :: acc) [])

/-- Bytes of an ASCII string, as used by `ne_md5_process_bytes` on C strings. -/
def strBytes (s : String) : List Nat := s.toList.map Char.toNat

/-- MD5 digest of a byte list, in the 32-lowercase-hex-character form the C
code stores (`ne_md5_finish_ctx` followed by `ne_md5_to_ascii`). -/
def md5HexBytes (msg : List Nat) : String := bytesToHex (md5Digest msg)

def md5Hex (s : String) : String := md5HexBytes (strBytes s)

/-! ### Small string utilities from the neon string layer -/

/-- ASCII lower-casing, the basis of the C `strcasecmp` comparisons. -/
def lowerChar (c : Char) : Char :=
  if ('A') ≤ c ∧ c ≤ ('Z') then Char.ofNat (c.toNat + 32) else c

def lower (s : String) : String := String.mk (s.toList.map lowerChar)

/-- Case-insensitive string equality (`strcasecmp(a, b) == 0`). -/
def caseEq (a b : String) : Bool := lower a = lower b

/-- Modelled from the spec: `ne_shave`, which strips any leading and
trailing characters belonging to `set` ("Quoted values are unquoted in
place"). -/
def ne_shave (s : String) (set : List Char) : String :=
  String.mk (((s.toList.dropWhile (· ∈ set)).reverse.dropWhile (· ∈ set)).reverse)

/-- Modelled from the spec: `ne_token(&val, ',')` splitting, i.e. the
comma-separated token list of a string (used for the `qop` directive). -/
def splitChar (sep : Char) : List Char → List (List Char)
  | [] => [[]]
  | c :: rest =>
    match splitChar sep rest with
    | [] => [[]]
    | g :: gs => if c = sep then [] :: g :: gs else (c :: g) :: gs

/-- Modelled from the spec: standard base64 with the `+/` alphabet and
`=` padding, as `ne_base64` provides. -/
def b64Chars : List Char :=
  ("ABCDEFGHIJKLMNOPQRSTUVWXYZabcdefghijklmnopqrstuvwxyz0123456789+/").toList

def b64Char (n : Nat) : Char := b64Chars.getD n ('A')

def b64Chunks : Nat → List Nat → List Char
  | 0, _ => []
  | _, [] => []
  | _ + 1, [b0] =>
    [b64Char (b0 / 4), b64Char (b0 % 4 * 16), ('='), ('=')]
  | _ + 1, [b0, b1] =>
    [b64Char (b0 / 4), b64Char (b0 % 4 * 16 + b1 / 16), b64Char (b1 % 16 * 4), ('=')]
  | fuel + 1, b0 :: b1 :: b2 :: rest =>
    b64Char (b0 / 4) :: b64Char (b0 % 4 * 16 + b1 / 16) ::
      b64Char (b1 % 16 * 4 + b2 / 64) :: b64Char (b2 % 64) ::
      b64Chunks fuel rest

def ne_base64 (bs : List Nat) : String := String.mk (b64Chunks (bs.length + 1) bs)

/-- Hex-prefix parse of a string, modelling `sscanf(val, "%x", &n)`:
the longest leading run of hex digits, `none` when there is none (the C
leaves the output variable untouched in that case).  The stored value is
reduced modulo 2^32 as the C target is an `unsigned int`. -/
def hexVal (c : Char) : Option Nat :=
  if ('0') ≤ c ∧ c ≤ ('9') then some (c.toNat - 48)
  else if ('a') ≤ c ∧ c ≤ ('f') then some (c.toNat - 87)
  else if ('A') ≤ c ∧ c ≤ ('F') then some (c.toNat - 55)
  else none

def parse_hex (s : String) : Option Nat :=
  let ds := s.toList.takeWhile (fun c => (hexVal c).isSome)
  if ds = [] then none
  else some ((ds.foldl (fun acc c => acc * 16 + (hexVal c).getD 0) 0) % m32)

/-- `%08x` formatting of an `unsigned int` (`nc_value` in `request_digest`). -/
def hexNAux : Nat → Nat → List Char → List Char
  | 0, _, acc => acc
  | d + 1, n, acc => hexNAux d (n / 16) (hexDigit (n % 16) :: acc)

def hex8 (n : Nat) : String := String.mk (hexNAux 8 n [])

/-- Substring test used to state facts about emitted header values. -/
def leadsWith : List Char → List Char → Bool
  | [], _ => true
  | _ :: _, [] => false
  | a :: as, b :: bs => a = b && leadsWith as bs

def listContainsSub (needle : List Char) : List Char → Bool
  | [] => leadsWith needle []
  | c :: rest => leadsWith needle (c :: rest) || listContainsSub needle rest

def strContains (hay needle : String) : Bool :=
  listContainsSub (needle.toList) (hay.toList)

/-! ### Data model (`ne_auth.c` lines 86-204) -/

inductive auth_scheme where
  | auth_scheme_basic
  | auth_scheme_digest
  | auth_scheme_gssapi
deriving DecidableEq, Repr

inductive auth_algorithm where
  | auth_alg_md5
  | auth_alg_md5_sess
  | auth_alg_unknown
deriving DecidableEq, Repr

inductive auth_qop where
  | auth_qop_none
  | auth_qop_auth
  | auth_qop_auth_int
deriving DecidableEq, Repr

export auth_scheme (auth_scheme_basic auth_scheme_digest auth_scheme_gssapi)
export auth_algorithm (auth_alg_md5 auth_alg_md5_sess auth_alg_unknown)
export auth_qop (auth_qop_none auth_qop_auth auth_qop_auth_int)

/-- `struct auth_challenge` (the `next` link is replaced by the list the
parser produces; the C field `opaque` is named `opq` here). -/
structure Challenge where
  scheme : auth_scheme
  realm : Option String
  nonce : Option String
  opq : Option String
  stale : Bool
  got_qop : Bool
  qop_auth : Bool
  qop_auth_int : Bool
  alg : auth_algorithm
deriving DecidableEq, Repr

/-- The two return codes that `auth_class::fail_code` can carry, plus the
generic engine return codes of `ah_post_send`. -/
inductive NeRet where
  | ne_ok
  | ne_retry
  | ne_error
  | ne_auth_code
  | ne_proxyauth_code
deriving DecidableEq, Repr

export NeRet (ne_ok ne_retry ne_error ne_auth_code ne_proxyauth_code)

/-- `struct auth_class`. -/
structure auth_class where
  req_hdr : String
  resp_hdr : String
  resp_info_hdr : String
  fail_msg : String
  status_code : Nat
  fail_code : NeRet
deriving DecidableEq, Repr

def ah_server_class : auth_class :=
  { req_hdr := "Authorization"
    resp_hdr := "WWW-Authenticate"
    resp_info_hdr := "Authentication-Info"
    fail_msg := "Server was not authenticated correctly."
    status_code := 401
    fail_code := ne_auth_code }

def ah_proxy_class : auth_class :=
  { req_hdr := "Proxy-Authorization"
    resp_hdr := "Proxy-Authenticate"
    resp_info_hdr := "Proxy-Authentication-Info"
    fail_msg := "Proxy server was not authenticated correctly."
    status_code := 407
    fail_code := ne_proxyauth_code }

inductive auth_context where
  | auth_any
  | auth_connect
  | auth_notconnect
deriving DecidableEq, Repr

export auth_context (auth_any auth_connect auth_notconnect)

/-- `auth_session` (the C field `opaque` is named `opq`; the parent
`ne_session`'s server hostname is inlined as `hostname`; `spec` is the
class descriptor, set once at registration and never reassigned). -/
structure auth_session where
  context : auth_context
  spec : auth_class
  scheme : auth_scheme
  username : String
  can_handle : Bool
  basic : Option String
  gssapi_token : Option String
  realm : Option String
  nonce : Option String
  cnonce : Option String
  opq : Option String
  qop : auth_qop
  alg : auth_algorithm
  nonce_count : Nat
  h_a1 : String
  stored_rdig : List Nat
  hostname : String
  attempt : Nat
deriving DecidableEq, Repr

/-- A freshly `ne_calloc`ed `auth_session` as `auth_register` builds it
(enum fields zero, i.e. first constructor; strings empty; pointers NULL). -/
def init_session (spec : auth_class) (context : auth_context) : auth_session :=
  { context := context
    spec := spec
    scheme := auth_scheme_basic
    username := ""
    can_handle := false
    basic := none
    gssapi_token := none
    realm := none
    nonce := none
    cnonce := none
    opq := none
    qop := auth_qop_none
    alg := auth_alg_md5
    nonce_count := 0
    h_a1 := ""
    stored_rdig := []
    hostname := ""
    attempt := 0 }

/-- `struct auth_request`.  `response_body` is the running MD5 context over
the response body (as its byte list); `body` stands for the request entity
body that `ne_pull_request_body` feeds back during `request_digest`. -/
structure auth_request where
  method : String
  uri : String
  will_handle : Bool
  response_body : List Nat
  body : List Nat
  auth_hdr : Option String
  auth_info_hdr : Option String
deriving DecidableEq, Repr

/-- The credentials callback: given realm and attempt number, `some`
(username, password) on a zero return, `none` on a non-zero (cancel). -/
def CredsCb : Type := String → Nat → Option (String × String)

/-- The GSSAPI side of `gssapi_challenge` collapsed to an oracle: given the
server hostname, `some` output-token bytes on success (the
`gss_import_name` / `gss_init_sec_context` sequence), `none` on failure. -/
def GssCb : Type := String → Option (List Nat)

/-- `clean_session` (`ne_auth.c` lines 206-217). -/
def clean_session (sess : auth_session) : auth_session :=
  { sess with
    can_handle := false
    basic := none
    nonce := none
    cnonce := none
    opq := none
    realm := none
    gssapi_token := none }

/-! ### The tokenizer (`tokenize`, `ne_auth.c` lines 616-669)

The C function is a destructive cursor over the header string; here it
maps the remaining character list to either end-of-input, the `-1`
failure, or one key/value token plus the remaining list.  The key is
`none` only on the path where the C function returns with `*key == NULL`
(input that is entirely whitespace), on which the C callers read
uninitialised locals; the parsing loops below stop there. -/

inductive TokRes where
  | done
  | fail
  | tok (key : Option String) (value : Option String) (rest : List Char)
deriving DecidableEq, Repr

/-- `AFTER_EQ` / `AFTER_EQ_QUOTED` states: accumulate the value until an
unquoted comma or end of input. -/
def tokVal (key : String) (quoted : Bool) (acc : List Char) : List Char → TokRes
  | [] => TokRes.tok (some key) (some (String.mk acc.reverse)) []
  | c :: rest =>
    if quoted then
      if c = Char.ofNat 34 then tokVal key false (c :: acc) rest
      else tokVal key true (c :: acc) rest
    else if c = (',') then TokRes.tok (some key) (some (String.mk acc.reverse)) rest
    else if c = Char.ofNat 34 then tokVal key true (c :: acc) rest
    else tokVal key false (c :: acc) rest

/-- `BEFORE_EQ` with the key already started: scan to `=` (value follows)
or, in challenge mode, to a space (bare scheme token, value `NULL`).
At end of input the C returns the key with value `NULL` in challenge
mode and an uninitialised value otherwise; both are `none` here. -/
def tokKey (ischall : Bool) (acc : List Char) : List Char → TokRes
  | [] => TokRes.tok (some (String.mk acc.reverse)) none []
  | c :: rest =>
    if c = ('=') then tokVal (String.mk acc.reverse) false [] rest
    else if ischall ∧ c = (' ') then TokRes.tok (some (String.mk acc.reverse)) none rest
    else tokKey ischall (c :: acc) rest

/-- `BEFORE_EQ` before any key character: skip ` \r\n\t`; a leading `=`
is the `-1` parse failure. -/
def tokPre (ischall : Bool) : List Char → TokRes
  | [] => TokRes.tok none none []
  | c :: rest =>
    if c = ('=') then TokRes.fail
    else if c = (' ') ∨ c = Char.ofNat 13 ∨ c = Char.ofNat 10 ∨ c = Char.ofNat 9 then
      tokPre ischall rest
    else tokKey ischall [c] rest

def tokenize (ischall : Bool) (l : List Char) : TokRes :=
  match l with
  | [] => TokRes.done
  | _ => tokPre ischall l

/-! ### Scheme validators

Each validator returns the mutated session together with the C result
recast as a `Bool` (`true` for the C return value 0, i.e. the challenge
was accepted).  A failing validator still keeps its session mutations,
exactly as the C code does. -/

/-- `get_credentials` (`ne_auth.c` lines 271-275): calls the callback with
the session realm and the attempt counter, post-incrementing the counter. -/
def get_credentials (creds : CredsCb) (sess : auth_session) :
    auth_session × Option (String × String) :=
  ({ sess with attempt := sess.attempt + 1 },
   creds (sess.realm.getD ("")) sess.attempt)

/-- `basic_challenge` (`ne_auth.c` lines 279-310). -/
def basic_challenge (creds : CredsCb) (sess : auth_session) (parms : Challenge) :
    auth_session × Bool :=
  match parms.realm with
  | none => (sess, false)
  | some r =>
    let sess := { clean_session sess with realm := some r }
    match get_credentials creds sess with
    | (sess, none) => (sess, false)
    | (sess, some (u, pw)) =>
      ({ sess with
         username := u
         scheme := auth_scheme_basic
         basic := some (ne_base64 (strBytes (u ++ ":" ++ pw))) }, true)

/-- `request_basic` (`ne_auth.c` lines 313-316). -/
def request_basic (sess : auth_session) : String :=
  "Basic " ++ sess.basic.getD ("") ++ "\r\n"

/-- `gssapi_challenge` (`ne_auth.c` lines 341-382), with the GSS library
calls collapsed into the `gss` oracle; an empty output token is a
failure, otherwise the base64 of the token is stored. -/
def gssapi_challenge (gss : GssCb) (sess : auth_session) (_parms : Challenge) :
    auth_session × Bool :=
  let sess := clean_session sess
  match gss sess.hostname with
  | none => (sess, false)
  | some tokbytes =>
    if tokbytes = [] then (sess, false)
    else
      ({ sess with
         gssapi_token := some (ne_base64 tokbytes)
         scheme := auth_scheme_gssapi }, true)

/-- `request_gssapi` (`ne_auth.c` lines 320-323). -/
def request_gssapi (sess : auth_session) : String :=
  "GSS-Negotiate " ++ sess.gssapi_token.getD ("") ++ "\r\n"

/-- The tail of `digest_challenge` after the validation gate and the
stale/credentials split (`ne_auth.c` lines 419-481): install the
challenge parameters, select the session qop from `got_qop`, and (for a
non-stale challenge) derive H(A1) from the just-obtained password.
`cnonceGen` stands for the `get_cnonce()` result (OS randomness). -/
def digest_install (cnonceGen : String) (password : String)
    (sess : auth_session) (parms : Challenge) : auth_session :=
  let sess :=
    { sess with
      alg := parms.alg
      scheme := auth_scheme_digest
      nonce := parms.nonce
      cnonce := some cnonceGen }
  let sess :=
    match parms.opq with
    | some o => { sess with opq := some o }
    | none => sess
  let sess :=
    if parms.got_qop then
      { sess with
        nonce_count := 0
        qop := if parms.qop_auth_int then auth_qop_auth_int else auth_qop_auth }
    else
      { sess with qop := auth_qop_none }
  if parms.stale then sess
  else
    let base := md5Hex (sess.username ++ ":" ++ sess.realm.getD ("") ++ ":" ++ password)
    if sess.alg = auth_alg_md5_sess then
      { sess with
        h_a1 := md5Hex (base ++ ":" ++ sess.nonce.getD ("") ++ ":" ++ sess.cnonce.getD ("")) }
    else
      { sess with h_a1 := base }

/-- `digest_challenge` (`ne_auth.c` lines 387-482). -/
def digest_challenge (creds : CredsCb) (cnonceGen : String)
    (sess : auth_session) (parms : Challenge) : auth_session × Bool :=
  if parms.alg = auth_alg_unknown ∨
     (parms.alg = auth_alg_md5_sess ∧ ¬(parms.qop_auth = true ∨ parms.qop_auth_int = true)) ∨
     parms.realm = none ∨ parms.nonce = none then
    (sess, false)
  else if parms.stale then
    (digest_install cnonceGen ("") sess parms, true)
  else
    let sess := { clean_session sess with realm := parms.realm }
    match get_credentials creds sess with
    | (sess, none) => (sess, false)
    | (sess, some (u, pw)) =>
      (digest_install cnonceGen pw { sess with username := u } parms, true)

/-- `request_digest` (`ne_auth.c` lines 494-610): returns the updated
session (nonce count, `stored_rdig` snapshot) and the credentials header
value. -/
def request_digest (sess : auth_session) (req : auth_request) :
    auth_session × String :=
  let sess :=
    if sess.qop ≠ auth_qop_none then
      { sess with nonce_count := (sess.nonce_count + 1) % m32 }
    else sess
  let nc_value := if sess.qop ≠ auth_qop_none then hex8 sess.nonce_count else ("")
  let qop_value := if sess.qop = auth_qop_auth_int then ("auth-int") else ("auth")
  let a2 :=
    strBytes req.method ++ strBytes (":") ++ strBytes req.uri ++
      (if sess.qop = auth_qop_auth_int then
        strBytes (":") ++ (strBytes (md5HexBytes req.body)).take 32
      else [])
  let a2_ascii := md5HexBytes a2
  let base :=
    (strBytes sess.h_a1).take 32 ++ strBytes (":") ++
      strBytes (sess.nonce.getD ("")) ++ strBytes (":")
  let stored :=
    if sess.qop ≠ auth_qop_none then
      base ++ (strBytes nc_value).take 8 ++ strBytes (":") ++
        strBytes (sess.cnonce.getD ("")) ++ strBytes (":")
    else base
  let rdig :=
    (if sess.qop ≠ auth_qop_none then stored ++ strBytes qop_value ++ strBytes (":")
     else stored) ++ (strBytes a2_ascii).take 32
  let rdig_ascii := md5HexBytes rdig
  let hdr :=
    "Digest username=\"" ++ sess.username ++ "\", " ++
    "realm=\"" ++ sess.realm.getD ("") ++ "\", " ++
    "nonce=\"" ++ sess.nonce.getD ("") ++ "\", " ++
    "uri=\"" ++ req.uri ++ "\", " ++
    "response=\"" ++ rdig_ascii ++ "\", " ++
    "algorithm=\"" ++ (if sess.alg = auth_alg_md5 then ("MD5") else ("MD5-sess")) ++ "\""
  let hdr :=
    match sess.opq with
    | some o => hdr ++ ", opaque=\"" ++ o ++ "\""
    | none => hdr
  let hdr :=
    if sess.qop ≠ auth_qop_none then
      hdr ++ ", cnonce=\"" ++ sess.cnonce.getD ("") ++ "\", " ++
        "nc=" ++ nc_value ++ ", " ++ "qop=\"" ++ qop_value ++ "\""
    else hdr
  ({ sess with stored_rdig := stored }, hdr ++ "\r\n")

/-! ### The challenge parser (`auth_challenge`, `ne_auth.c` lines 823-915)

The C loop builds a forward-linked list by *prepending* each new
challenge (`chall->next = challenges; challenges = chall;`) and
populates parameter pairs into the most recently created challenge,
i.e. the head of that list. -/

/-- A freshly `ne_calloc`ed challenge: flags clear, pointers NULL and the
algorithm enum zero, which is `auth_alg_md5`. -/
def new_challenge (s : auth_scheme) : Challenge :=
  { scheme := s
    realm := none
    nonce := none
    opq := none
    stale := false
    got_qop := false
    qop_auth := false
    qop_auth_int := false
    alg := auth_alg_md5 }

def scheme_of_token (k : String) : Option auth_scheme :=
  if caseEq k ("basic") then some auth_scheme_basic
  else if caseEq k ("digest") then some auth_scheme_digest
  else if caseEq k ("gss-negotiate") then some auth_scheme_gssapi
  else none

/-- One token of a `qop` directive value (`ne_auth.c` lines 897-905):
shave spaces and tabs, then set the matching flag. -/
def qop_token_step (c : Challenge) (tok : List Char) : Challenge :=
  let tok := ne_shave (String.mk tok) [(' '), Char.ofNat 9]
  if caseEq tok ("auth") then { c with qop_auth := true }
  else if caseEq tok ("auth-int") then { c with qop_auth_int := true }
  else c

/-- Application of one parsed `key = value` pair to the open challenge
(`ne_auth.c` lines 873-906).  The value is first shaved of single and
double quotes.  Note: the `qop` branch sets the `qop_auth` /
`qop_auth_int` flags but never sets `got_qop`, exactly as the source
does. -/
def apply_pair (k v : String) (c : Challenge) : Challenge :=
  let v := ne_shave v [Char.ofNat 34, Char.ofNat 39]
  if caseEq k ("realm") then { c with realm := some v }
  else if caseEq k ("nonce") then { c with nonce := some v }
  else if caseEq k ("opaque") then { c with opq := some v }
  else if caseEq k ("stale") then { c with stale := caseEq v ("true") }
  else if caseEq k ("algorithm") then
    { c with alg :=
        if caseEq v ("md5") then auth_alg_md5
        else if caseEq v ("md5-sess") then auth_alg_md5_sess
        else auth_alg_unknown }
  else if caseEq k ("qop") then
    (splitChar (',') v.toList).foldl qop_token_step c
  else c

/-- The parsing loop.  `cur` is the C `challenges` list (head = most
recently opened challenge).  An unknown scheme token discards the whole
list and breaks; a tokenizer failure ends the loop keeping the
challenges parsed so far; a pair seen before any scheme token is
skipped.  The fuel is an upper bound on the number of tokenizer calls
(each consumes at least one character). -/
def parse_loop : Nat → List Challenge → List Char → List Challenge
  | 0, cur, _ => cur
  | fuel + 1, cur, l =>
    match tokenize true l with
    | TokRes.done => cur
    | TokRes.fail => cur
    | TokRes.tok none _ _ => cur
    | TokRes.tok (some k) none rest =>
      match scheme_of_token k with
      | some s => parse_loop fuel (new_challenge s :: cur) rest
      | none => []
    | TokRes.tok (some k) (some v) rest =>
      match cur with
      | [] => parse_loop fuel [] rest
      | c :: cs => parse_loop fuel (apply_pair k v c :: cs) rest

def parse_challenges (value : String) : List Challenge :=
  parse_loop (value.length + 1) [] value.toList

/-- The insertion-order challenge list, following the spec's words:
"each bare token opens a new Challenge ... Subsequent key/value pairs
populate the currently open challenge ... Produces a list in insertion
order."  New challenges are appended and pairs populate the last
(currently open) element.  Used to compare against what the source
builds. -/
def updateLast (f : α → α) : List α → List α
  | [] => []
  | [a] => [f a]
  | a :: b :: rest => a :: updateLast f (b :: rest)

def parse_loop_spec : Nat → List Challenge → List Char → List Challenge
  | 0, cur, _ => cur
  | fuel + 1, cur, l =>
    match tokenize true l with
    | TokRes.done => cur
    | TokRes.fail => cur
    | TokRes.tok none _ _ => cur
    | TokRes.tok (some k) none rest =>
      match scheme_of_token k with
      | some s => parse_loop_spec fuel (cur ++ [new_challenge s]) rest
      | none => []
    | TokRes.tok (some k) (some v) rest =>
      parse_loop_spec fuel (updateLast (apply_pair k v) cur) rest

def parse_challenges_spec (value : String) : List Challenge :=
  parse_loop_spec (value.length + 1) [] value.toList

/-! ### Scheme selection (`auth_challenge`, `ne_auth.c` lines 917-976) -/

/-- The candidates of a given scheme, in list order. -/
def scheme_filter (s : auth_scheme) (l : List Challenge) : List Challenge :=
  l.filter fun c => c.scheme = s

/-- One scheme pass: iterate over the whole challenge list, invoking the
validator `W` on the challenges of scheme `s`, stopping at the first
acceptance; session mutations of failed validators are kept. -/
def try_scheme (W : auth_session → Challenge → auth_session × Bool)
    (s : auth_scheme) (sess : auth_session) :
    List Challenge → auth_session × Bool
  | [] => (sess, false)
  | c :: cs =>
    if c.scheme = s then
      let r := W sess c
      if r.2 then r else try_scheme W s r.1 cs
    else try_scheme W s sess cs

/-- The three passes in source order: GSSAPI, then Digest, then Basic. -/
def auth_select (creds : CredsCb) (gss : GssCb) (cnonceGen : String)
    (sess : auth_session) (challs : List Challenge) : auth_session × Bool :=
  let r1 := try_scheme (gssapi_challenge gss) auth_scheme_gssapi sess challs
  if r1.2 then r1
  else
    let r2 := try_scheme (digest_challenge creds cnonceGen) auth_scheme_digest r1.1 challs
    if r2.2 then r2
    else try_scheme (basic_challenge creds) auth_scheme_basic r2.1 challs

/-- Reference form of the selection used to state the ordering claim: a
single first-acceptance scan of an explicitly ordered candidate list,
dispatching on the challenge's scheme. -/
def challenge_validate (creds : CredsCb) (gss : GssCb) (cnonceGen : String)
    (sess : auth_session) (c : Challenge) : auth_session × Bool :=
  match c.scheme with
  | auth_scheme_basic => basic_challenge creds sess c
  | auth_scheme_digest => digest_challenge creds cnonceGen sess c
  | auth_scheme_gssapi => gssapi_challenge gss sess c

def first_accept (V : auth_session → Challenge → auth_session × Bool)
    (sess : auth_session) : List Challenge → auth_session × Bool
  | [] => (sess, false)
  | c :: cs =>
    let r := V sess c
    if r.2 then r else first_accept V r.1 cs

/-- `auth_challenge` (`ne_auth.c` lines 823-976): parse, then select.
Returns `true` where the C returns 0 (a challenge was accepted).  When
no challenge at all was parsed the function returns early *without*
touching `can_handle`; otherwise `can_handle` records the success. -/
def auth_challenge_fn (creds : CredsCb) (gss : GssCb) (cnonceGen : String)
    (sess : auth_session) (value : String) : auth_session × Bool :=
  let challs := parse_challenges value
  if challs = [] then (sess, false)
  else
    let r := auth_select creds gss cnonceGen sess challs
    ({ r.1 with can_handle := r.2 }, r.2)

/-! ### Response verification (`verify_response`, `ne_auth.c` lines 677-818) -/

/-- The locals that the `Authentication-Info` parsing loop of
`verify_response` accumulates.  `qop` is the enum parsed from the
*header's* `qop` directive; `nonce_count` is the `sscanf("%x")` result,
`none` while nothing parsed (the C leaves the variable uninitialised
then; the comparison below treats that as a mismatch, a case no theorem
in this file relies on). -/
structure InfoParams where
  qop : auth_qop
  qop_value : Option String
  nextnonce : Option String
  rspauth : Option String
  cnonce : Option String
  nc : Option String
  nonce_count : Option Nat
deriving DecidableEq, Repr

def init_info : InfoParams :=
  { qop := auth_qop_none
    qop_value := none
    nextnonce := none
    rspauth := none
    cnonce := none
    nc := none
    nonce_count := none }

/-- One key/value pair of the `Authentication-Info` header
(`ne_auth.c` lines 705-731); the value is shaved of double quotes. -/
def apply_info_pair (k v : String) (p : InfoParams) : InfoParams :=
  let v := ne_shave v [Char.ofNat 34]
  if caseEq k ("qop") then
    { p with
      qop_value := some v
      qop :=
        if caseEq v ("auth-int") then auth_qop_auth_int
        else if caseEq v ("auth") then auth_qop_auth
        else auth_qop_none }
  else if caseEq k ("nextnonce") then { p with nextnonce := some v }
  else if caseEq k ("rspauth") then { p with rspauth := some v }
  else if caseEq k ("cnonce") then { p with cnonce := some v }
  else if caseEq k ("nc") then
    { p with
      nc := some v
      nonce_count :=
        match parse_hex v with
        | some n => some n
        | none => p.nonce_count }
  else p

/-- The `while (tokenize(...) == 0)` loop of `verify_response`, with
non-challenge tokenization.  A token carrying no value only arises at
the undefined-behaviour ends of the C loop (uninitialised `val`); the
loop stops there. -/
def parse_info_loop : Nat → InfoParams → List Char → InfoParams
  | 0, p, _ => p
  | fuel + 1, p, l =>
    match tokenize false l with
    | TokRes.done => p
    | TokRes.fail => p
    | TokRes.tok none _ _ => p
    | TokRes.tok (some _) none _ => p
    | TokRes.tok (some k) (some v) rest =>
      parse_info_loop fuel (apply_info_pair k v p) rest

def parse_auth_info (value : String) : InfoParams :=
  parse_info_loop (value.length + 1) init_info value.toList

/-- Installation of a `nextnonce` (`ne_auth.c` lines 807-813).  The source
replaces the nonce but does not touch `nonce_count`. -/
def install_nextnonce (p : InfoParams) (sess : auth_session) : auth_session :=
  match p.nextnonce with
  | some nn => { sess with nonce := some nn }
  | none => sess

/-- The response-digest recomputation (`ne_auth.c` lines 749-799): resume
from the `stored_rdig` snapshot, append `qop-value ":"` when the header
carried a qop, then H(A2') computed with an *empty method* (`":" uri`,
plus `":" H(entity-body)` for auth-int over the captured response body). -/
def rspauth_digest_input (req : auth_request) (sess : auth_session)
    (p : InfoParams) : List Nat :=
  let a2 :=
    strBytes (":") ++ strBytes req.uri ++
      (if p.qop = auth_qop_auth_int then
        strBytes (":") ++ (strBytes (md5HexBytes req.response_body)).take 32
      else [])
  sess.stored_rdig ++
    (if p.qop ≠ auth_qop_none then strBytes (p.qop_value.getD ("")) ++ strBytes (":")
     else []) ++
    (strBytes (md5HexBytes a2)).take 32

/-- The post-loop checks of `verify_response` (`ne_auth.c` lines 733-817).
Returns the updated session and `true` where the C returns 0 (header
accepted). -/
def verify_check (req : auth_request) (sess : auth_session) (p : InfoParams) :
    auth_session × Bool :=
  if p.qop ≠ auth_qop_none ∧ p.qop_value ≠ none then
    if p.rspauth = none ∨ p.cnonce = none ∨ p.nc = none then
      (install_nextnonce p sess, false)
    else if p.cnonce ≠ some (sess.cnonce.getD ("")) then
      (install_nextnonce p sess, false)
    else if p.nonce_count ≠ some sess.nonce_count then
      (install_nextnonce p sess, false)
    else
      let rd := rspauth_digest_input req sess p
      let okay := caseEq (md5HexBytes rd) (p.rspauth.getD (""))
      (install_nextnonce p { sess with stored_rdig := rd }, okay)
  else (install_nextnonce p sess, true)

/-- `verify_response` (`ne_auth.c` lines 677-818). -/
def verify_response (req : auth_request) (sess : auth_session) (value : String) :
    auth_session × Bool :=
  if req.will_handle = false then (sess, true)
  else if sess.scheme ≠ auth_scheme_digest then (sess, false)
  else verify_check req sess (parse_auth_info value)

/-! ### Lifecycle hooks and registration -/

/-- `ah_create` (`ne_auth.c` lines 987-1016): consult the context filter
against `method == "CONNECT"`; when it passes, attach a fresh
`auth_request` (whose captured-header slots start empty) and reset the
attempt counter. -/
def ah_create (sess : auth_session) (method uri : String) :
    auth_session × Option auth_request :=
  let is_connect := method = "CONNECT"
  if sess.context = auth_any ∨ (is_connect ∧ sess.context = auth_connect) ∨
     (¬is_connect ∧ sess.context = auth_notconnect) then
    ({ sess with attempt := 0 },
     some { method := method
            uri := uri
            will_handle := false
            response_body := []
            body := []
            auth_hdr := none
            auth_info_hdr := none })
  else (sess, none)

/-- `ah_pre_send` (`ne_auth.c` lines 1019-1064): when the session can
handle authentication and an `auth_request` is attached, set
`will_handle`, initialise the response-body digest for auth-int, and
append `"<req_hdr>: <value>"` to the outgoing header block.  Returns the
updated session, the updated request, and the appended header line (if
any). -/
def ah_pre_send (sess : auth_session) (req : Option auth_request) :
    auth_session × Option auth_request × Option String :=
  match req with
  | none => (sess, none, none)
  | some r =>
    if sess.can_handle = false then (sess, some r, none)
    else
      let r := { r with will_handle := true }
      let r := if sess.qop = auth_qop_auth_int then { r with response_body := [] } else r
      match sess.scheme with
      | auth_scheme_basic =>
        (sess, some r, some (sess.spec.req_hdr ++ ": " ++ request_basic sess))
      | auth_scheme_digest =>
        let rd := request_digest sess r
        (rd.1, some r, some (sess.spec.req_hdr ++ ": " ++ rd.2))
      | auth_scheme_gssapi =>
        (sess, some r, some (sess.spec.req_hdr ++ ": " ++ request_gssapi sess))

/-- `ah_post_send` (`ne_auth.c` lines 1068-1100).  `spec` is read through
the original session pointer; the field is set at registration and never
reassigned by any of the functions above. -/
def ah_post_send (creds : CredsCb) (gss : GssCb) (cnonceGen : String)
    (sess : auth_session) (areq : Option auth_request) (status : Nat) :
    auth_session × NeRet :=
  match areq with
  | none => (sess, ne_ok)
  | some ar =>
    let v := match ar.auth_info_hdr with
      | some value =>
        let r := verify_response ar sess value
        (r.1, !r.2)
      | none => (sess, false)
    if v.2 then (v.1, ne_error)
    else if status = sess.spec.status_code ∧ ar.auth_hdr ≠ none then
      let r := auth_challenge_fn creds gss cnonceGen v.1 (ar.auth_hdr.getD (""))
      if r.2 then (r.1, ne_retry)
      else (clean_session r.1, sess.spec.fail_code)
    else (v.1, ne_ok)

/-- The context-filter selection of `auth_register`
(`ne_auth.c` lines 1128-1131). -/
def auth_register_context (scheme : String) (isproxy : Bool) : auth_context :=
  if scheme = "https" then
    if isproxy then auth_connect else auth_notconnect
  else auth_any

/-- `ne_set_server_auth` / `ne_set_proxy_auth` session construction
(`ne_auth.c` lines 1117-1151), reduced to the session record it builds. -/
def auth_register (scheme : String) (isproxy : Bool) (hostname : String) :
    auth_session :=
  { init_session (if isproxy then ah_proxy_class else ah_server_class)
      (auth_register_context scheme isproxy) with hostname := hostname }

/-! ### Concrete scenario fixtures

The RFC 2617 §3.5 example and the sessions derived from it, used by
several of the concrete theorems below. -/

def no_gss : GssCb := fun _ => none

def rfc2617_creds : CredsCb := fun _ _ => some ("Mufasa", "Circle Of Life")

def rfc2617_challenge_hdr : String :=
  "Digest realm=\"testrealm@host.com\", qop=\"auth\", " ++
  "nonce=\"dcd98b7102dd2f0e8b11d0f600bfb0c093\", " ++
  "opaque=\"5ccc069c403ebaf9f0171e9517f40e41\""

/-- The session after processing the RFC 2617 challenge with the RFC's
credentials and cnonce (the `get_cnonce` randomness instantiated to the
RFC's `0a4f113b`). -/
def rfc2617_accept : auth_session × Bool :=
  auth_challenge_fn rfc2617_creds no_gss ("0a4f113b")
    (auth_register ("http") false ("host")) rfc2617_challenge_hdr

def rfc2617_session : auth_session := rfc2617_accept.1

def rfc2617_request : auth_request :=
  { method := "GET"
    uri := "/dir/index.html"
    will_handle := true
    response_body := []
    body := []
    auth_hdr := none
    auth_info_hdr := none }

/-- `rfc2617_session` with the qop selection the spec describes for a
challenge offering `auth` (what `digest_challenge` would have chosen had
the parser set `got_qop`). -/
def rfc2617_qop_session : auth_session :=
  { rfc2617_session with qop := auth_qop_auth, nonce_count := 0 }

/-- A Digest session that has negotiated qop=auth and sent one request. -/
def c3_sess : auth_session :=
  { rfc2617_session with qop := auth_qop_auth, nonce_count := 1 }

def c3_areq : auth_request :=
  { rfc2617_request with
    auth_info_hdr := some ("rspauth=\"deadbeefdeadbeefdeadbeefdeadbeef\"") }

def c3w_p : InfoParams :=
  { init_info with qop := auth_qop_auth, qop_value := some ("auth") }

def c3w_value : String := "qop=\"auth\""

def c3w_areq : auth_request :=
  { rfc2617_request with auth_info_hdr := some c3w_value }

def c4_sess : auth_session :=
  { rfc2617_session with qop := auth_qop_auth, nonce_count := 5 }

def c4_verify : auth_session × Bool :=
  verify_response rfc2617_request c4_sess ("nextnonce=\"NEWNONCE\"")

def c5_stale_hdr : String :=
  "Digest realm=\"testrealm@host.com\", qop=\"auth\", stale=true, nonce=\"NEWNONCE99\""

def c5_areq : auth_request :=
  { rfc2617_request with auth_hdr := some c5_stale_hdr }

def c5_creds_alt : CredsCb := fun _ _ => some ("OTHERUSER", "OTHERPASS")

def c5_creds_cancel : CredsCb := fun _ _ => none

def c5_result : auth_session × NeRet :=
  ah_post_send c5_creds_alt no_gss ("newcnonce") rfc2617_session (some c5_areq) 401

def c2_hdr : String := "Digest realm=\"r\", nonce=\"n\", qop=\"auth\""

def c2_hdr_int : String := "Digest realm=\"r\", nonce=\"n\", qop=\"auth-int\""

def c2_creds : CredsCb := fun _ _ => some ("u", "p")

def c2_res : auth_session × Bool :=
  auth_challenge_fn c2_creds no_gss ("cn") (auth_register ("http") false ("h")) c2_hdr

def c2_res_int : auth_session × Bool :=
  auth_challenge_fn c2_creds no_gss ("cn") (auth_register ("http") false ("h")) c2_hdr_int

def c7w_creds : CredsCb := fun _ _ => none

def c7w_value : String := "Basic realm=\"r\""

def c7w_sess : auth_session := auth_register ("http") false ("h")

def c7w_areq : auth_request :=
  { method := "GET"
    uri := "/"
    will_handle := false
    response_body := []
    body := []
    auth_hdr := some c7w_value
    auth_info_hdr := none }

def c8_hdr : String := "Basic realm=\"r1\", Basic realm=\"r2\""

def c10_sess : auth_session :=
  { auth_register ("http") false ("h") with scheme := auth_scheme_basic }

def c10_areq_off : auth_request :=
  { rfc2617_request with will_handle := false }

def c10_areq_on : auth_request :=
  { rfc2617_request with auth_info_hdr := some ("rspauth=\"ab\"") }

/-! ## Theorems -/

/-- Claim C6: Digest challenge validation rejects every challenge
missing a realm, missing a nonce, or carrying an unknown algorithm, and
every MD5-sess challenge offering neither qop auth nor auth-int; every
other Digest challenge passes the gate, acceptance then depending only
on the credentials callback (a stale challenge passing the gate is
accepted without consulting it). -/
theorem claim6_digest_validation (creds : CredsCb) (cn : String)
    (sess : auth_session) (parms : Challenge) :
    (digest_challenge creds cn sess parms).2 = false ↔
      (parms.alg = auth_alg_unknown ∨
        (parms.alg = auth_alg_md5_sess ∧
          ¬(parms.qop_auth = true ∨ parms.qop_auth_int = true)) ∨
        parms.realm = none ∨ parms.nonce = none) ∨
      (parms.stale = false ∧ creds (parms.realm.getD ("")) sess.attempt = none) := by
  unfold digest_challenge
  split_ifs with h1 h2
  · exact iff_of_true rfl (Or.inl h1)
  · refine iff_of_false (by simp) ?_
    rintro (h | ⟨hf, _⟩)
    · exact h1 h
    · rw [h2] at hf
      exact Bool.noConfusion hf
  · have hs : parms.stale = false := by
      cases hb : parms.stale
      · rfl
      · exact absurd hb h2
    unfold get_credentials
    cases hc : creds (parms.realm.getD ("")) sess.attempt with
    | none =>
      refine iff_of_true ?_ (Or.inr ⟨hs, rfl⟩)
      simp [clean_session, hc]
    | some up =>
      refine iff_of_false ?_ ?_
      · simp [clean_session, hc]
      · rintro (h | ⟨_, hcn⟩)
        · exact h1 h
        · exact Option.noConfusion hcn

/-- Claim C9: on an https transport, registering server auth yields the
NotConnect filter and proxy auth the Connect filter; any other transport
scheme yields Any.  With the Connect filter, `ah_create` attaches an
AuthRequest for a CONNECT request and none for a GET request. -/
theorem claim9_context_filter (s : String) (isproxy : Bool)
    (sess : auth_session) (uri : String)
    (hs : s ≠ "https") (hc : sess.context = auth_connect) :
    auth_register_context ("https") true = auth_connect
    ∧ auth_register_context ("https") false = auth_notconnect
    ∧ auth_register_context s isproxy = auth_any
    ∧ (ah_create sess ("CONNECT") uri).2.isSome = true
    ∧ (ah_create sess ("GET") uri).2 = none := by
  refine ⟨rfl, rfl, ?_, ?_, ?_⟩
  · simp [auth_register_context, hs]
  · simp [ah_create, hc]
  · simp [ah_create, hc]

/-- Claim C10: an Authentication-Info header captured on a request for
which no credentials were emitted (`will_handle` false) is ignored and
verification reports success; one captured while credentials were
emitted but the selected scheme is not Digest fails verification, and
`ah_post_send` then returns the error code. -/
theorem claim10_auth_info_gate (creds : CredsCb) (gss : GssCb) (cn : String)
    (sess : auth_session) (ar : auth_request) (value : String) (status : Nat) :
    (ar.will_handle = false → verify_response ar sess value = (sess, true))
    ∧ (ar.will_handle = true → sess.scheme ≠ auth_scheme_digest →
        (verify_response ar sess value).2 = false
        ∧ (ar.auth_info_hdr = some value →
            (ah_post_send creds gss cn sess (some ar) status).2 = ne_error)) := by
  constructor
  · intro h
    simp [verify_response, h]
  · intro h1 h2
    have hv : (verify_response ar sess value).2 = false := by
      simp [verify_response, h1, h2]
    refine ⟨hv, ?_⟩
    intro hinfo
    simp [ah_post_send, hinfo, hv]

/-- A per-scheme pass over the full list equals a first-acceptance scan
of the filtered candidate list, for any validator `W` that agrees with
`V` on challenges of that scheme. -/
theorem try_scheme_eq (V W : auth_session → Challenge → auth_session × Bool)
    (s : auth_scheme) (hVW : ∀ se c, c.scheme = s → W se c = V se c) :
    ∀ (l : List Challenge) (sess : auth_session),
      try_scheme W s sess l = first_accept V sess (scheme_filter s l) := by
  intro l
  induction l with
  | nil => intro sess; rfl
  | cons c cs ih =>
    intro sess
    by_cases h : c.scheme = s
    · rw [scheme_filter, List.filter_cons_of_pos (by simpa using h)]
      show try_scheme W s sess (c :: cs) = first_accept V sess (c :: List.filter _ cs)
      rw [try_scheme, first_accept, if_pos h, hVW sess c h]
      cases hb : (V sess c).2
      · simp only [hb, if_false, Bool.false_eq_true]
        exact ih (V sess c).1
      · simp [hb]
    · rw [scheme_filter, List.filter_cons_of_neg (by simpa using h)]
      rw [try_scheme, if_neg h]
      exact ih sess

/-- First-acceptance scans compose over list concatenation, threading the
session of a fully failed prefix. -/
theorem first_accept_append (V : auth_session → Challenge → auth_session × Bool)
    (b : List Challenge) :
    ∀ (a : List Challenge) (sess : auth_session),
      first_accept V sess (a ++ b) =
        (if (first_accept V sess a).2 then first_accept V sess a
         else first_accept V (first_accept V sess a).1 b) := by
  intro a
  induction a with
  | nil => intro sess; simp [first_accept]
  | cons c cs ih =>
    intro sess
    show first_accept V sess (c :: (cs ++ b)) = _
    rw [first_accept, first_accept]
    cases hb : (V sess c).2
    · simp only [hb, if_false, Bool.false_eq_true]
      exact ih (V sess c).1
    · simp [hb]

/-- The source's three scheme passes are exactly a single first-acceptance
scan of the Negotiate, then Digest, then Basic candidates. -/
theorem auth_select_order (creds : CredsCb) (gss : GssCb) (cn : String)
    (sess : auth_session) (l : List Challenge) :
    auth_select creds gss cn sess l =
      first_accept (challenge_validate creds gss cn) sess
        (scheme_filter auth_scheme_gssapi l ++
          (scheme_filter auth_scheme_digest l ++ scheme_filter auth_scheme_basic l)) := by
  have hg : ∀ se c, c.scheme = auth_scheme_gssapi →
      gssapi_challenge gss se c = challenge_validate creds gss cn se c := by
    intro se c h
    simp [challenge_validate, h]
  have hd : ∀ se c, c.scheme = auth_scheme_digest →
      digest_challenge creds cn se c = challenge_validate creds gss cn se c := by
    intro se c h
    simp [challenge_validate, h]
  have hb : ∀ se c, c.scheme = auth_scheme_basic →
      basic_challenge creds se c = challenge_validate creds gss cn se c := by
    intro se c h
    simp [challenge_validate, h]
  rw [first_accept_append, first_accept_append]
  rw [← try_scheme_eq (challenge_validate creds gss cn) (gssapi_challenge gss)
        auth_scheme_gssapi hg l sess]
  unfold auth_select
  cases h1 : (try_scheme (gssapi_challenge gss) auth_scheme_gssapi sess l).2
  · simp only [h1, if_false, Bool.false_eq_true]
    rw [← try_scheme_eq (challenge_validate creds gss cn) (digest_challenge creds cn)
          auth_scheme_digest hd l _]
    cases h2 : (try_scheme (digest_challenge creds cn) auth_scheme_digest
        (try_scheme (gssapi_challenge gss) auth_scheme_gssapi sess l).1 l).2
    · simp only [h2, if_false, Bool.false_eq_true]
      rw [← try_scheme_eq (challenge_validate creds gss cn) (basic_challenge creds)
            auth_scheme_basic hb l _]
    · simp [h2]
  · simp [h1]

/-- Claim C7: scheme selection tries all Negotiate candidates, then all
Digest candidates, then all Basic candidates, stopping at the first
acceptance; `can_handle` records whether some challenge was accepted
(provided the parsed list was nonempty); and when no challenge is
accepted, `ah_post_send` on the gated status surfaces the class's
failure code. -/
theorem claim7_scheme_order (creds : CredsCb) (gss : GssCb) (cn : String)
    (sess : auth_session) (value : String) (status : Nat) (ar : auth_request) :
    (auth_select creds gss cn sess (parse_challenges value) =
      first_accept (challenge_validate creds gss cn) sess
        (scheme_filter auth_scheme_gssapi (parse_challenges value) ++
          (scheme_filter auth_scheme_digest (parse_challenges value) ++
            scheme_filter auth_scheme_basic (parse_challenges value))))
    ∧ (parse_challenges value ≠ [] →
        (auth_challenge_fn creds gss cn sess value).1.can_handle =
          (auth_challenge_fn creds gss cn sess value).2)
    ∧ (ar.auth_info_hdr = none → ar.auth_hdr = some value →
        status = sess.spec.status_code →
        (auth_challenge_fn creds gss cn sess value).2 = false →
        (ah_post_send creds gss cn sess (some ar) status).2 = sess.spec.fail_code) := by
  refine ⟨auth_select_order creds gss cn sess (parse_challenges value), ?_, ?_⟩
  · intro hne
    simp [auth_challenge_fn, hne]
  · intro hinfo hhdr hst hrej
    simp [ah_post_send, hinfo, hhdr, hst, hrej]

theorem updateLast_concat (f : α → α) (a : α) :
    ∀ (l : List α), updateLast f (l ++ [a]) = l ++ [f a] := by
  intro l
  induction l with
  | nil => rfl
  | cons b l ih =>
    cases l with
    | nil => rfl
    | cons c l' =>
      have step : updateLast f ((b :: c :: l') ++ [a]) =
          b :: updateLast f ((c :: l') ++ [a]) := rfl
      rw [step, ih]
      rfl

/-- The source's parsing loop produces exactly the reverse of the
insertion-order list: prepending a new challenge reverses appending, and
updating the head reverses updating the last element. -/
theorem parse_loop_rev :
    ∀ (fuel : Nat) (cur : List Challenge) (l : List Char),
      parse_loop fuel cur l = (parse_loop_spec fuel cur.reverse l).reverse := by
  intro fuel
  induction fuel with
  | zero =>
    intro cur l
    simp [parse_loop, parse_loop_spec]
  | succ fuel ih =>
    intro cur l
    rw [parse_loop, parse_loop_spec]
    cases h : tokenize true l with
    | done => simp
    | fail => simp
    | tok k v rest =>
      cases k with
      | none => simp
      | some key =>
        cases v with
        | none =>
          dsimp only
          cases hs : scheme_of_token key with
          | some s =>
            dsimp only
            rw [ih (new_challenge s :: cur) rest, List.reverse_cons]
          | none => simp
        | some val =>
          dsimp only
          cases cur with
          | nil =>
            dsimp only
            rw [ih [] rest]
            rfl
          | cons c cs =>
            dsimp only
            rw [ih (apply_pair key val c :: cs) rest]
            rw [List.reverse_cons, List.reverse_cons, updateLast_concat]

/-- Claim C8 (amended form): the parsed candidate list is the *reverse*
of the insertion-order list, for every header value. -/
theorem claim8_reverse_order (value : String) :
    parse_challenges value = (parse_challenges_spec value).reverse := by
  have h := parse_loop_rev (value.length + 1) [] value.toList
  simpa [parse_challenges, parse_challenges_spec] using h

/-- `qop_token_step` never touches `got_qop`. -/
theorem qop_fold_got_qop (toks : List (List Char)) :
    ∀ c : Challenge, ((toks.foldl qop_token_step c).got_qop = c.got_qop) := by
  induction toks with
  | nil => intro c; rfl
  | cons t ts ih =>
    intro c
    rw [List.foldl_cons, ih]
    simp only [qop_token_step]
    split_ifs <;> rfl

/-- `apply_pair` never touches `got_qop`. -/
theorem apply_pair_got_qop (k v : String) (c : Challenge) :
    (apply_pair k v c).got_qop = c.got_qop := by
  unfold apply_pair
  split_ifs <;> first | rfl | exact qop_fold_got_qop _ c

/-- Invariant of the parsing loop: the `got_qop` bit of every produced
challenge is clear, since `ne_calloc` starts it clear and no parsing
step sets it. -/
theorem parse_loop_got_qop :
    ∀ (fuel : Nat) (cur : List Challenge) (l : List Char),
      (∀ c ∈ cur, c.got_qop = false) →
      ∀ c ∈ parse_loop fuel cur l, c.got_qop = false := by
  intro fuel
  induction fuel with
  | zero =>
    intro cur l hcur
    simpa [parse_loop] using hcur
  | succ fuel ih =>
    intro cur l hcur
    rw [parse_loop]
    cases h : tokenize true l with
    | done => exact hcur
    | fail => exact hcur
    | tok k v rest =>
      cases k with
      | none => exact hcur
      | some key =>
        cases v with
        | none =>
          dsimp only
          cases hs : scheme_of_token key with
          | some s =>
            dsimp only
            refine ih (new_challenge s :: cur) rest ?_
            intro c hc
            rcases List.mem_cons.mp hc with hc | hc
            · rw [hc]; rfl
            · exact hcur c hc
          | none =>
            dsimp only
            intro c hc
            exact absurd hc (List.not_mem_nil c)
        | some val =>
          dsimp only
          cases cur with
          | nil => exact ih [] rest (by intro c hc; exact absurd hc (List.not_mem_nil c))
          | cons c0 cs =>
            refine ih (apply_pair key val c0 :: cs) rest ?_
            intro c hc
            rcases List.mem_cons.mp hc with hc | hc
            · rw [hc, apply_pair_got_qop]
              exact hcur c0 (List.mem_cons_self c0 cs)
            · exact hcur c (List.mem_cons_of_mem c0 hc)

/-- The challenge parser never reports a qop directive: `got_qop` is
`false` on every challenge it produces (the C parser populates the
`qop_auth` / `qop_auth_int` flags but never assigns `got_qop`). -/
theorem parse_challenges_got_qop (value : String) :
    ∀ c ∈ parse_challenges value, c.got_qop = false := by
  refine parse_loop_got_qop _ [] _ ?_
  intro c hc
  exact absurd hc (List.not_mem_nil c)

/-- Claim C1 (behaviour of the source at the RFC 2617 §3.5 input): the
challenge is accepted and H(A1) is the RFC's, but because the parser
never sets `got_qop`, the session qop collapses to none and the emitted
credential header carries the qop-less response digest
`670fd8c2df070c60b045671b8b24ff02` — not the RFC's
`6629fae49393a05397450978507c4ef1` that the claim requires. -/
theorem claim1_rfc2617_digest :
    rfc2617_accept.2 = true
    ∧ rfc2617_session.h_a1 = "939e7578ed9e3c518a452acee763bce9"
    ∧ (request_digest rfc2617_session rfc2617_request).2 =
        "Digest username=\"Mufasa\", realm=\"testrealm@host.com\", " ++
        "nonce=\"dcd98b7102dd2f0e8b11d0f600bfb0c093\", uri=\"/dir/index.html\", " ++
        "response=\"670fd8c2df070c60b045671b8b24ff02\", algorithm=\"MD5\", " ++
        "opaque=\"5ccc069c403ebaf9f0171e9517f40e41\"\r\n"
    ∧ strContains (request_digest rfc2617_session rfc2617_request).2
        ("6629fae49393a05397450978507c4ef1") = false := by
  decide

/-- Had the qop selection worked as the spec describes (session qop
`auth`), the very same session would emit the RFC 2617 §3.5 response
digest `6629fae49393a05397450978507c4ef1` with `nc=00000001` — evidence
that the missing `got_qop` assignment in the parser is a slip. -/
theorem rfc2617_intended_qop_digest :
    strContains (request_digest rfc2617_qop_session rfc2617_request).2
      ("response=\"6629fae49393a05397450978507c4ef1\"") = true
    ∧ strContains (request_digest rfc2617_qop_session rfc2617_request).2
        ("nc=00000001") = true := by
  decide

/-- Claim C2 (behaviour of the source at the failing inputs): a Digest
challenge offering `qop="auth"` is accepted with session qop none, and
likewise one offering `qop="auth-int"` — because the parser records the
offer in `qop_auth`/`qop_auth_int` but `digest_challenge` keys the
selection on `got_qop`, which is never set. -/
theorem claim2_qop_selection_ignored :
    (parse_challenges c2_hdr).head?.map Challenge.qop_auth = some true
    ∧ c2_res.2 = true
    ∧ c2_res.1.qop = auth_qop_none
    ∧ (parse_challenges c2_hdr_int).head?.map Challenge.qop_auth_int = some true
    ∧ c2_res_int.2 = true
    ∧ c2_res_int.1.qop = auth_qop_none := by
  decide

/-- Claim C3 counterexample: after a Digest request with negotiated
qop=auth, an `Authentication-Info` reply carrying only
`rspauth="deadbeef..."` is *accepted* (the source keys its checks on the
header's own qop directive, absent here), so `ah_post_send` returns
`ne_ok`, not the error the claim requires. -/
theorem claim3_counterexample_authinfo :
    c3_sess.scheme = auth_scheme_digest
    ∧ c3_sess.qop = auth_qop_auth
    ∧ c3_areq.will_handle = true
    ∧ (ah_post_send rfc2617_creds no_gss ("x") c3_sess (some c3_areq) 200).2 = ne_ok
    ∧ ne_ok ≠ ne_error := by
  decide

/-- Claim C3 (amended): when the captured `Authentication-Info` header
itself carries a recognised qop directive, verification rejects if
rspauth, cnonce or nc is absent, if the header's cnonce or nc does not
match the session, or if the recomputed digest differs from rspauth;
and a rejected verification makes `ah_post_send` return the error. -/
theorem claim3_amended_verification (creds : CredsCb) (gss : GssCb) (cn : String)
    (req ar : auth_request) (sess : auth_session) (p : InfoParams)
    (value : String) (status : Nat)
    (h1 : p.qop ≠ auth_qop_none) (h2 : p.qop_value ≠ none) :
    ((p.rspauth = none ∨ p.cnonce = none ∨ p.nc = none) →
      (verify_check req sess p).2 = false)
    ∧ (p.cnonce ≠ some (sess.cnonce.getD ("")) → (verify_check req sess p).2 = false)
    ∧ (p.nonce_count ≠ some sess.nonce_count → (verify_check req sess p).2 = false)
    ∧ (caseEq (md5HexBytes (rspauth_digest_input req sess p)) (p.rspauth.getD ("")) = false →
        (verify_check req sess p).2 = false)
    ∧ ((verify_response ar sess value).2 = false → ar.auth_info_hdr = some value →
        (ah_post_send creds gss cn sess (some ar) status).2 = ne_error) := by
  have hcond : p.qop ≠ auth_qop_none ∧ p.qop_value ≠ none := ⟨h1, h2⟩
  refine ⟨?_, ?_, ?_, ?_, ?_⟩
  · intro h
    unfold verify_check
    rw [if_pos hcond]
    split_ifs
    rfl
  · intro h
    unfold verify_check
    rw [if_pos hcond]
    split_ifs <;> rfl
  · intro h
    unfold verify_check
    rw [if_pos hcond]
    split_ifs <;> rfl
  · intro h
    unfold verify_check
    rw [if_pos hcond]
    split_ifs with hm hcn hnc
    · rfl
    · rfl
    · rfl
    · exact h
  · intro hv hinfo
    simp [ah_post_send, hinfo, hv]

theorem claim3_witness :
    (verify_check rfc2617_request c3_sess c3w_p).2 = false
    ∧ (ah_post_send rfc2617_creds no_gss ("x") c3_sess (some c3w_areq) 200).2 = ne_error :=
  ⟨(claim3_amended_verification rfc2617_creds no_gss ("x") rfc2617_request c3w_areq
      c3_sess c3w_p c3w_value 200 (by decide) (by decide)).1 (by decide),
   (claim3_amended_verification rfc2617_creds no_gss ("x") rfc2617_request c3w_areq
      c3_sess c3w_p c3w_value 200 (by decide) (by decide)).2.2.2.2 (by decide) rfl⟩

/-- Claim C4 (behaviour of the source at the failing input): a
`nextnonce` in an accepted `Authentication-Info` header replaces the
session nonce but does *not* reset `nonce_count` — from 5 the next
emitted nc is `00000006`, not the `00000001` the claim requires. -/
theorem claim4_nextnonce_no_reset :
    c4_sess.nonce_count = 5
    ∧ c4_verify.2 = true
    ∧ c4_verify.1.nonce = some ("NEWNONCE")
    ∧ c4_verify.1.nonce_count = 5
    ∧ strContains (request_digest c4_verify.1 rfc2617_request).2 ("nc=00000006") = true
    ∧ strContains (request_digest c4_verify.1 rfc2617_request).2 ("nc=00000001") = false := by
  decide

/-- Claim C5 (behaviour of the source at the failing input): a stale
Digest challenge with matching realm is processed without consulting the
credentials callback (identical result for any callback, attempt counter
and username untouched), H(A1) is kept, the new nonce is installed and
the 401 yields Retry — but the replayed request carries *no* `nc` at
all (the stale challenge's `qop="auth"` offer is lost to the unset
`got_qop`), rather than the `nc=00000001` the claim requires. -/
theorem claim5_stale_replay :
    c5_result = ah_post_send c5_creds_cancel no_gss ("newcnonce")
        rfc2617_session (some c5_areq) 401
    ∧ c5_result.2 = ne_retry
    ∧ c5_result.1.h_a1 = rfc2617_session.h_a1
    ∧ c5_result.1.username = rfc2617_session.username
    ∧ c5_result.1.attempt = rfc2617_session.attempt
    ∧ c5_result.1.nonce = some ("NEWNONCE99")
    ∧ strContains (request_digest c5_result.1 rfc2617_request).2 ("nc=") = false := by
  decide

theorem claim7_witness :
    ((auth_challenge_fn c7w_creds no_gss ("cn") c7w_sess c7w_value).1.can_handle =
      (auth_challenge_fn c7w_creds no_gss ("cn") c7w_sess c7w_value).2)
    ∧ (ah_post_send c7w_creds no_gss ("cn") c7w_sess (some c7w_areq) 401).2 =
        c7w_sess.spec.fail_code :=
  ⟨(claim7_scheme_order c7w_creds no_gss ("cn") c7w_sess c7w_value 401 c7w_areq).2.1
      (by decide),
   (claim7_scheme_order c7w_creds no_gss ("cn") c7w_sess c7w_value 401 c7w_areq).2.2
      rfl rfl (by decide) (by decide)⟩

/-- Claim C8 counterexample: for a header with two Basic challenges, the
source's list is *not* the insertion-order list — its first candidate is
the challenge whose realm appeared last in the header value. -/
theorem claim8_counterexample :
    parse_challenges c8_hdr ≠ parse_challenges_spec c8_hdr
    ∧ (parse_challenges c8_hdr).head?.map Challenge.realm = some (some ("r2"))
    ∧ (parse_challenges_spec c8_hdr).head?.map Challenge.realm = some (some ("r1")) := by
  decide

theorem claim9_witness :
    auth_register_context ("https") true = auth_connect
    ∧ auth_register_context ("https") false = auth_notconnect
    ∧ auth_register_context ("http") false = auth_any
    ∧ (ah_create (auth_register ("https") true ("h")) ("CONNECT") ("/x")).2.isSome = true
    ∧ (ah_create (auth_register ("https") true ("h")) ("GET") ("/x")).2 = none :=
  claim9_context_filter ("http") false (auth_register ("https") true ("h")) ("/x")
    (by decide) (by decide)

theorem claim10_witness :
    (verify_response c10_areq_off c10_sess ("nextnonce=\"x\"") = (c10_sess, true))
    ∧ ((verify_response c10_areq_on c10_sess ("rspauth=\"ab\"")).2 = false
        ∧ (ah_post_send rfc2617_creds no_gss ("cn") c10_sess (some c10_areq_on) 200).2 =
            ne_error) :=
  ⟨(claim10_auth_info_gate rfc2617_creds no_gss ("cn") c10_sess c10_areq_off
      ("nextnonce=\"x\"") 200).1 rfl,
   ⟨((claim10_auth_info_gate rfc2617_creds no_gss ("cn") c10_sess c10_areq_on
        ("rspauth=\"ab\"") 200).2 rfl (by decide)).1,
    ((claim10_auth_info_gate rfc2617_creds no_gss ("cn") c10_sess c10_areq_on
        ("rspauth=\"ab\"") 200).2 rfl (by decide)).2 rfl⟩⟩

end NeonAuth
